import Mathlib

/-!
Verification of the authentication and access-control core of the jwp-pms
backend (FastAPI + SQLAlchemy).  The definitions below are a shallow
embedding of the Python source:

* `src/backend/src/core/security.py`      — JWT issuance / decoding (jose)
* `src/backend/src/utils/auth.py`         — second JWT stack (PyJWT)
* `src/backend/src/core/dependencies.py`  — identity resolution, project and
  task permission checkers
* `src/backend/src/services/project.py`   — project service (create project,
  member removal, service-level access checks)
* `src/backend/src/services/calendar.py`  — event access checker, event
  read / update / delete

Database rows are lists of records; SQLAlchemy's `scalar_one_or_none` is
modelled by `scalarOneOrNone`; timestamps are unix seconds (`Nat`); a JWT is
its claim set together with the key that signed it, and signature
verification succeeds exactly when the verifying key equals the signing key.

Two one-line helper methods that the source calls on `User` objects
(`User.is_admin`, `User.update_last_active`) are not defined anywhere under
the repository's source tree — only their call sites exist.  They are
modelled from the specification and marked as such in their doc comments.
-/

namespace PMS

/-! ## Data model (src/backend/src/models) -/

/-- `UserRole` enumeration from models/user.py. -/
inductive UserRole where
  | admin
  | manager
  | developer
  | tester
  | guest
  | contributor
  | viewer
deriving DecidableEq, Repr

/-- A row of the `users` table (models/user.py).  Only the columns read by
the access-control core are kept: `id`, `role`, `is_active`, and the
advisory `last_active` timestamp. -/
structure User where
  id : Nat
  role : UserRole
  is_active : Bool
  last_active : Option Nat := none
deriving DecidableEq, Repr

/-- A row of the `projects` table (models/project.py).  `creator_id` is
`nullable=False`, hence a plain `Nat`. -/
structure Project where
  id : Nat
  creator_id : Nat
  is_public : Bool
  is_active : Bool := true
deriving DecidableEq, Repr

/-- A row of the `project_members` table (models/project.py).  The `role`
column is `String(20)` holding the plain-string constants of
`core/constants.py` (`"owner"`, `"manager"`, `"developer"`, `"tester"`,
`"viewer"`).  The table has a unique constraint on `(project_id, user_id)`. -/
structure ProjectMember where
  project_id : Nat
  user_id : Nat
  role : String
  is_active : Bool := true
  added_by : Nat
deriving DecidableEq, Repr

/-- A row of the `tasks` table (models/task.py).  `creator_id` is
`nullable=False` at the schema level, but the permission code in
core/dependencies.py explicitly branches on `task.creator_id is None`, so
the field is carried as an `Option`.  `project_id` is nullable. -/
structure Task where
  id : Nat
  project_id : Option Nat
  creator_id : Option Nat
deriving DecidableEq, Repr

/-- A row of the `task_assignments` table (models/task.py); unique
constraint on `(task_id, user_id)`. -/
structure TaskAssignment where
  task_id : Nat
  user_id : Nat
  is_active : Bool := true
deriving DecidableEq, Repr

/-- A row of the `calendars` table (models/calendar.py); `owner_id` is
`nullable=False`. -/
structure Calendar where
  id : Nat
  owner_id : Nat
  is_public : Bool
deriving DecidableEq, Repr

/-- A row of the `events` table (models/calendar.py).  `creator_id` is
`nullable=False` at the schema level but the service code branches on it
being `None`, so it is carried as an `Option`.  `calendar_id` is
`nullable=False`. -/
structure Event where
  id : Nat
  calendar_id : Nat
  creator_id : Option Nat
  title : String := ""
deriving DecidableEq, Repr

/-- A row of the `event_attendees` table (models/calendar.py). -/
structure EventAttendee where
  event_id : Nat
  user_id : Nat
  response_status : String := "pending"
deriving DecidableEq, Repr

/-- The database state visible to the access-control core. -/
structure DB where
  users : List User := []
  projects : List Project := []
  members : List ProjectMember := []
  tasks : List Task := []
  assignments : List TaskAssignment := []
  calendars : List Calendar := []
  events : List Event := []
  attendees : List EventAttendee := []
  nextProjectId : Nat := 1
deriving DecidableEq, Repr

/-- SQLAlchemy's `Result.scalar_one_or_none()`: the row when the query
matched exactly one, `None` when it matched none.  More than one match
raises `MultipleResultsFound` in the source; the callers below either run
inside a `try/except` that converts any exception to `False`/`None`, or
query columns protected by a uniqueness constraint.  Theorems therefore
pin the relevant filters to zero-or-one-element lists. -/
def scalarOneOrNone : List α → Option α
  | [a] => some a
  | _ => none

/-! ## Token service (src/backend/src/core/security.py, jose JWT stack)

A token is modelled as its claim set plus the symmetric key that signed
it; `jose_decode tok key now` succeeds exactly when `key` matches the
signing key and the token is not expired, mirroring `jose.jwt.decode`
(which verifies the signature and the `exp` claim).  The `sub` claim is
stored by the source as `str(subject)` and parsed back with `int(...)`;
since that round-trip is the identity on user ids, the model carries the
numeric id directly. -/

def ACCESS_TOKEN_EXPIRE_MINUTES : Nat := 30

def REFRESH_TOKEN_EXPIRE_DAYS : Nat := 7

/-- Claim set of a security.py token: `{sub, iat, exp, token_type, scopes}`. -/
structure JoseClaims where
  sub : Option Nat
  iat : Nat
  exp : Nat
  token_type : String
  scopes : List String := []
deriving DecidableEq, Repr

/-- A signed token: claims plus signing key (signature validity is key
equality). -/
structure JoseToken where
  claims : JoseClaims
  key : Nat
deriving DecidableEq, Repr

inductive JWTError where
  | invalidSignature
  | expiredSignature
  | invalidTokenType
  | tokenExpired
deriving DecidableEq, Repr

/-- `jose.jwt.decode(token, key, ...)`: signature check then expiry check. -/
def jose_decode (tok : JoseToken) (key now : Nat) : Except JWTError JoseClaims :=
  if tok.key ≠ key then .error .invalidSignature
  else if tok.claims.exp < now then .error .expiredSignature
  else .ok tok.claims

/-- `create_access_token` (security.py:46-74): claims
`{exp := now + delta (default 30 min), iat := now, sub := subject,
token_type := "access", scopes := scopes or []}`. -/
def create_access_token (subject : Nat) (now : Nat) (expires_delta : Option Nat)
    (scopes : Option (List String)) (key : Nat) : JoseToken :=
  let expire :=
    match expires_delta with
    | some d => now + d
    | none => now + ACCESS_TOKEN_EXPIRE_MINUTES * 60
  { claims := { sub := some subject, iat := now, exp := expire,
                token_type := "access", scopes := scopes.getD [] },
    key := key }

/-- `create_refresh_token` (security.py:77-95): claims
`{exp := now + 7 days, iat := now, sub := subject, token_type := "refresh"}`. -/
def create_refresh_token (subject : Nat) (now : Nat) (key : Nat) : JoseToken :=
  { claims := { sub := some subject, iat := now,
                exp := now + REFRESH_TOKEN_EXPIRE_DAYS * 86400,
                token_type := "refresh", scopes := [] },
    key := key }

/-- `decode_access_token` (security.py:98-128): jose decode (signature +
expiry), reject `token_type ≠ "access"`, then the function's own explicit
expiry re-check `utcnow() > token_data.exp`. -/
def decode_access_token (tok : JoseToken) (key now : Nat) : Except JWTError JoseClaims :=
  match jose_decode tok key now with
  | .error e => .error e
  | .ok payload =>
    if payload.token_type ≠ "access" then .error .invalidTokenType
    else if payload.exp < now then .error .tokenExpired
    else .ok payload

/-- `decode_refresh_token` (security.py:131-159): same shape with expected
type `"refresh"`. -/
def decode_refresh_token (tok : JoseToken) (key now : Nat) : Except JWTError JoseClaims :=
  match jose_decode tok key now with
  | .error e => .error e
  | .ok payload =>
    if payload.token_type ≠ "refresh" then .error .invalidTokenType
    else if payload.exp < now then .error .tokenExpired
    else .ok payload

/-! ## Second JWT stack (src/backend/src/utils/auth.py, PyJWT)

This module tags tokens with a `"type"` claim (instead of `"token_type"`)
and carries `user_id` (instead of `sub`).  `verify_token` returns `None`
on every failure. -/

/-- Claim-relevant payload of a utils/auth.py token. -/
structure PyJwtClaims where
  user_id : Option Nat
  exp : Nat
  type_tag : Option String
  scopes : List String := []
deriving DecidableEq, Repr

structure PyJwtToken where
  claims : PyJwtClaims
  key : Nat
deriving DecidableEq, Repr

/-- `create_access_token` (utils/auth.py:49-73): copies the caller's data
(here: `user_id`, `scopes`) and sets `exp := now + delta (default 30 min)`
and `type := "access"`. -/
def utils_create_access_token (user_id : Option Nat) (scopes : List String)
    (now : Nat) (expires_delta : Option Nat) (key : Nat) : PyJwtToken :=
  let expire :=
    match expires_delta with
    | some d => now + d
    | none => now + ACCESS_TOKEN_EXPIRE_MINUTES * 60
  { claims := { user_id := user_id, exp := expire, type_tag := some "access",
                scopes := scopes },
    key := key }

/-- `create_refresh_token` (utils/auth.py:76-100): sets
`exp := now + delta (default 7 days)` and `type := "refresh"`. -/
def utils_create_refresh_token (user_id : Option Nat) (now : Nat)
    (expires_delta : Option Nat) (key : Nat) : PyJwtToken :=
  let expire :=
    match expires_delta with
    | some d => now + d
    | none => now + REFRESH_TOKEN_EXPIRE_DAYS * 86400
  { claims := { user_id := user_id, exp := expire, type_tag := some "refresh",
                scopes := [] },
    key := key }

/-- Data returned by `verify_token` on success. -/
structure TokenOut where
  user_id : Nat
  scopes : List String
deriving DecidableEq, Repr

/-- `verify_token` (utils/auth.py:103-136): PyJWT decode (signature +
expiry, each failure returning `None` via the except arms), then `None`
when the `"type"` claim differs from the expected one, then `None` when
`user_id` is absent. -/
def verify_token (tok : PyJwtToken) (token_type : String) (key now : Nat) :
    Option TokenOut :=
  if tok.key ≠ key then none
  else if tok.claims.exp < now then none
  else if tok.claims.type_tag ≠ some token_type then none
  else
    match tok.claims.user_id with
    | none => none
    | some uid => some { user_id := uid, scopes := tok.claims.scopes }

/-! ## Identity resolution and permission checkers
(src/backend/src/core/dependencies.py) -/

/-- Modelled from the spec: `User.is_admin` is called throughout
core/dependencies.py (get_current_admin_user, ProjectPermission,
TaskPermission) but is defined nowhere under src/ — only its call sites
exist.  Spec §3 / §4.3: ADMIN is the only role with implicit cross-resource
privilege ("ADMIN's implicit bypass"; "Admin can access everything"). -/
def User.is_admin (u : User) : Bool :=
  u.role == UserRole.admin

/-- Modelled from the spec: `User.update_last_active` is called by
`get_current_user` (core/dependencies.py:56) but is defined nowhere under
src/.  Spec §4.2: "on success, updates the user's last-active timestamp";
the write is advisory and touches no other field. -/
def User.update_last_active (u : User) (now : Nat) : User :=
  { u with last_active := some now }

/-- `select(User).where(User.id == uid)` + `scalar_one_or_none`. -/
def lookupUser (db : DB) (uid : Nat) : Option User :=
  scalarOneOrNone (db.users.filter (fun u => u.id == uid))

/-- `get_current_user` (core/dependencies.py:26-63).  Missing credentials
give `None`; the whole body runs in a `try` whose `except Exception`
returns `None`, so a decode failure, a missing `sub` claim (the raised
`ValueError`), an unknown subject, or an inactive user all yield `None`
rather than an exception.  On success the user's last-active timestamp is
updated and the user is returned. -/
def get_current_user (credentials : Option JoseToken) (db : DB) (key now : Nat) :
    Option User :=
  match credentials with
  | none => none
  | some tok =>
    match decode_access_token tok key now with
    | .error _ => none
    | .ok token_data =>
      match token_data.sub with
      | none => none
      | some uid =>
        match lookupUser db uid with
        | none => none
        | some user =>
          -- `if not isinstance(user.is_active, bool) or not user.is_active`:
          -- the isinstance test is vacuous here since the column is Boolean
          if user.is_active then some (user.update_last_active now) else none

/-- `ProjectPermission.check_project_access` (core/dependencies.py:162-200):
admin bypass, then `select(Project).where(id == project_id, creator_id ==
user.id)`, then `select(ProjectMember).where(project_id, user_id,
is_active == True)`.  The `is_public` flag is never consulted. -/
def check_project_access (project_id : Nat) (current_user : User) (db : DB) : Bool :=
  if current_user.is_admin then true
  else if (scalarOneOrNone (db.projects.filter
      (fun p => p.id == project_id && p.creator_id == current_user.id))).isSome then true
  else (scalarOneOrNone (db.members.filter
      (fun m => m.project_id == project_id && m.user_id == current_user.id
                && m.is_active))).isSome

/-- `TaskPermission.check_task_access` (core/dependencies.py:229-280):
admin bypass; missing task denies; a task whose `creator_id` is `None`
is denied before the assignment and project checks run; then creator,
then active assignment, then (when the task has a project) delegation to
`check_project_access`. -/
def check_task_access (task_id : Nat) (current_user : User) (db : DB) : Bool :=
  if current_user.is_admin then true
  else
    match scalarOneOrNone (db.tasks.filter (fun t => t.id == task_id)) with
    | none => false
    | some task =>
      match task.creator_id with
      | none => false
      | some creator_id =>
        if creator_id == current_user.id then true
        else if (scalarOneOrNone (db.assignments.filter
            (fun a => a.task_id == task_id && a.user_id == current_user.id
                      && a.is_active))).isSome then true
        else
          match task.project_id with
          | none => false
          | some project_id => check_project_access project_id current_user db

/-! ## Project service (src/backend/src/services/project.py) -/

inductive SvcError where
  | notFound
  | authorization
  | authentication
  | validation
  | conflict
deriving DecidableEq, Repr

/-- `ProjectService._check_project_access` (services/project.py:576-605).
The source fetches the scalar `Project.is_public` into a variable named
`project`; `if not project: return False` therefore fires both when the
row is absent and when `is_public` is `False`, and `if project: return
True` then fires whenever `is_public` is `True` — so the membership query
below those lines is unreachable. -/
def svc_check_project_access (project_id user_id : Nat) (db : DB) : Bool :=
  match scalarOneOrNone ((db.projects.filter (fun p => p.id == project_id)).map
      (fun p => p.is_public)) with
  | none => false
  | some is_public =>
    if !is_public then false
    else if is_public then true
    else (scalarOneOrNone (db.members.filter
        (fun m => m.project_id == project_id && m.user_id == user_id))).isSome

/-- `ProjectService._check_project_permission` (services/project.py:607-629):
the `(project, user)` membership row (active or not) must exist and carry a
role in `required_roles`; any failure, including the absent row, gives
`False` (the body's `try/except` returns `False`). -/
def svc_check_project_permission (project_id user_id : Nat)
    (required_roles : List String) (db : DB) : Bool :=
  match scalarOneOrNone (db.members.filter
      (fun m => m.project_id == project_id && m.user_id == user_id)) with
  | none => false
  | some member => required_roles.contains member.role

/-- `ProjectService.create_project` (services/project.py:50-112): validate
the creator exists, insert the project, flush to obtain its id, insert the
creator's membership with `role = ProjectMemberRole.OWNER` (the column
default makes it active), and commit both rows in one transaction —
modelled as a single state transition returning the new state and the new
project's id. -/
def create_project (creator_id : Nat) (is_public : Bool) (db : DB) :
    Except SvcError (DB × Nat) :=
  match scalarOneOrNone (db.users.filter (fun u => u.id == creator_id)) with
  | none => .error .notFound
  | some _ =>
    let pid := db.nextProjectId
    let project : Project :=
      { id := pid, creator_id := creator_id, is_public := is_public }
    let owner_member : ProjectMember :=
      { project_id := pid, user_id := creator_id, role := "owner",
        is_active := true, added_by := creator_id }
    .ok ({ db with projects := db.projects ++ [project],
                   members := db.members ++ [owner_member],
                   nextProjectId := pid + 1 }, pid)

/-- `ProjectService.remove_project_member` (services/project.py:385-423):
the caller must hold an `owner`/`manager` membership row
(`_check_project_permission`, else `AuthorizationError`); the target
membership row must exist (else `NotFoundError`); a row whose role is
`ProjectMemberRole.OWNER` is rejected with `ValidationError("Cannot remove
project owner")`; otherwise the row is deleted and committed.  Every error
path rolls back, leaving the membership set unchanged, which the model
expresses by returning no successor state on error. -/
def remove_project_member (project_id user_id removed_by : Nat) (db : DB) :
    Except SvcError DB :=
  if !svc_check_project_permission project_id removed_by ["owner", "manager"] db then
    .error .authorization
  else
    match scalarOneOrNone (db.members.filter
        (fun m => m.project_id == project_id && m.user_id == user_id)) with
    | none => .error .notFound
    | some member =>
      if member.role == "owner" then .error .validation
      else
        let remaining := db.members.filter
          (fun m => !(m.project_id == project_id && m.user_id == user_id))
        .ok { db with members := remaining }

/-! ## Calendar service (src/backend/src/services/calendar.py) -/

/-- `select(Event).where(Event.id == event_id)` + `scalar_one_or_none`. -/
def lookupEvent (db : DB) (event_id : Nat) : Option Event :=
  scalarOneOrNone (db.events.filter (fun e => e.id == event_id))

/-- The event's related `Calendar` (loaded via `selectinload(Event.calendar)`). -/
def lookupCalendar (db : DB) (calendar_id : Nat) : Option Calendar :=
  scalarOneOrNone (db.calendars.filter (fun c => c.id == calendar_id))

/-- `CalendarService._check_event_access` (services/calendar.py:869-912):
missing event denies; a `None` creator raises `NotFoundError`, which the
body's `except` converts to `False`; then creator, calendar owner, public
calendar, and finally attendee membership (any response status) each grant
access.  The function takes no role into account — there is no ADMIN
bypass. -/
def check_event_access (event_id user_id : Nat) (db : DB) : Bool :=
  match lookupEvent db event_id with
  | none => false
  | some event =>
    match event.creator_id with
    | none => false
    | some creator_id =>
      if creator_id == user_id then true
      else
        match lookupCalendar db event.calendar_id with
        | none => false
        | some cal =>
          if cal.owner_id == user_id then true
          else if cal.is_public then true
          else (scalarOneOrNone (db.attendees.filter
              (fun a => a.event_id == event_id && a.user_id == user_id))).isSome

/-- Python truthiness of the `Optional[int] user_id` parameters:
`if user_id:` is `False` for `None` and for `0`. -/
def truthy : Option Nat → Bool
  | none => false
  | some n => n != 0

/-- `CalendarService.get_event_by_id` (services/calendar.py:370-402):
missing event raises `NotFoundError`; then `if user_id:` runs the access
check only for a truthy `user_id` — an anonymous caller (`user_id is
None`) skips the check and receives the event. -/
def get_event_by_id (event_id : Nat) (user_id : Option Nat) (db : DB) :
    Except SvcError Event :=
  match lookupEvent db event_id with
  | none => .error .notFound
  | some event =>
    if truthy user_id then
      if check_event_access event_id (user_id.getD 0) db then .ok event
      else .error .authorization
    else .ok event

/-- `EventUpdate` payload restricted to the fields our projection carries;
`dict(exclude_unset=True)` semantics: only the set field is applied. -/
structure EventUpdate where
  title : Option String := none
deriving DecidableEq, Repr

/-- `CalendarService.update_event` (services/calendar.py:404-447): gated by
`_check_event_access` (the read-level check — `AuthorizationError` on
denial), then the event is looked up (`NotFoundError` when absent) and its
fields updated and committed. -/
def update_event (event_id : Nat) (event_data : EventUpdate) (user_id : Nat)
    (db : DB) : Except SvcError DB :=
  if !check_event_access event_id user_id db then .error .authorization
  else
    match lookupEvent db event_id with
    | none => .error .notFound
    | some _ =>
      let updated := db.events.map (fun e =>
        if e.id == event_id then
          { e with title := (event_data.title).getD e.title }
        else e)
      .ok { db with events := updated }

/-- `CalendarService.delete_event` (services/calendar.py:449-473): gated by
the same `_check_event_access`, then the event row is deleted. -/
def delete_event (event_id user_id : Nat) (db : DB) : Except SvcError DB :=
  if !check_event_access event_id user_id db then .error .authorization
  else
    match lookupEvent db event_id with
    | none => .error .notFound
    | some _ =>
      let remaining := db.events.filter (fun e => e.id != event_id)
      .ok { db with events := remaining }

/-- The public-calendar id list built by `list_events` for anonymous
callers (services/calendar.py:489-499):
`select(Calendar.id).where(Calendar.is_public == True)`. -/
def public_calendar_ids (db : DB) : List Nat :=
  (db.calendars.filter (fun c => c.is_public)).map (fun c => c.id)

/-- `CalendarService.list_events` for an anonymous caller (`user_id` is
`None`): events filtered to `Event.calendar_id.in_(public_calendar_ids)`. -/
def list_events_anonymous (db : DB) : List Event :=
  db.events.filter (fun e => (public_calendar_ids db).contains e.calendar_id)

/-! ## Route layer for event mutation (src/backend/src/api/calendar.py)

The update and delete routes depend on `get_current_active_user`, which
raises HTTP 401 when identity resolution produced no user; the service is
then called with `current_user.id`. -/

/-- `PUT /events/{event_id}` (api/calendar.py:115-135). -/
def api_update_event (event_id : Nat) (event_data : EventUpdate)
    (current_user : Option User) (db : DB) : Except SvcError DB :=
  match current_user with
  | none => .error .authentication
  | some u => update_event event_id event_data u.id db

/-- `DELETE /events/{event_id}` (api/calendar.py:151-168). -/
def api_delete_event (event_id : Nat) (current_user : Option User) (db : DB) :
    Except SvcError DB :=
  match current_user with
  | none => .error .authentication
  | some u => delete_event event_id u.id db

/-! ## Spec-side predicates

These two definitions follow the specification's words (spec.md §4.4 and
§4.6), not the source; they exist so the implemented evaluators can be
compared against what the spec claims about them. -/

/-- Spec §4.4 `can_read(user, project)`: ADMIN, or project creator, or an
active membership of any role, or the project's public flag. -/
def can_read_spec (u : User) (p : Project) (db : DB) : Bool :=
  u.is_admin || p.creator_id == u.id ||
  db.members.any (fun m => m.project_id == p.id && m.user_id == u.id && m.is_active) ||
  p.is_public

/-- Spec §4.6 mutation rule for events: "Mutation (edit/delete) is
restricted to creator, calendar owner, or ADMIN". -/
def event_mutation_spec (u : User) (e : Event) (db : DB) : Bool :=
  u.is_admin || e.creator_id == some u.id ||
  (match lookupCalendar db e.calendar_id with
   | some c => c.owner_id == u.id
   | none => false)

/-! ## Concrete fixtures used by witnesses and counterexamples -/

def uAlice : User := { id := 1, role := .developer, is_active := true }

def uBob : User := { id := 2, role := .developer, is_active := true }

def uCarol : User := { id := 3, role := .developer, is_active := true }

def uAdmin : User := { id := 4, role := .admin, is_active := true }

def uSleepy : User := { id := 5, role := .developer, is_active := false }

/-- A public project created by user 9 (whom none of the fixture users are). -/
def pPub : Project := { id := 1, creator_id := 9, is_public := true }

/-- A private project created by Alice, with Bob as an active viewer member. -/
def pPriv : Project := { id := 2, creator_id := 1, is_public := false }

def mBobViewer : ProjectMember :=
  { project_id := 2, user_id := 2, role := "viewer", is_active := true, added_by := 1 }

/-! ## Theorems -/

@[simp]
theorem except_isOk_error (e : ε) : (Except.error e : Except ε α).isOk = false := rfl

@[simp]
theorem except_isOk_ok (a : α) : (Except.ok a : Except ε α).isOk = true := rfl

/-- Claim C7: a token minted with type `refresh` is rejected by access-type
verification and a token minted with type `access` is rejected by
refresh-type verification, in both JWT stacks (`decode_access_token` /
`decode_refresh_token` of core/security.py and `verify_token` of
utils/auth.py), for every subject, issue time, verification time and
verifying key. -/
theorem C7_token_type_confusion_rejected :
    ∀ (subject iat now key vkey : Nat) (d : Option Nat) (s : Option (List String))
      (uid : Option Nat) (sc : List String),
      (decode_access_token (create_refresh_token subject iat key) vkey now).isOk = false
      ∧ (decode_refresh_token (create_access_token subject iat d s key) vkey now).isOk = false
      ∧ verify_token (utils_create_refresh_token uid iat d key) "access" vkey now = none
      ∧ verify_token (utils_create_access_token uid sc iat d key) "refresh" vkey now = none := by
  intro subject iat now key vkey d s uid sc
  refine ⟨?_, ?_, ?_, ?_⟩
  · simp only [decode_access_token, jose_decode, create_refresh_token]
    by_cases hk : key = vkey
    · by_cases he : iat + REFRESH_TOKEN_EXPIRE_DAYS * 86400 < now <;> simp [hk, he]
    · simp [hk]
  · cases d with
    | none =>
      simp only [decode_refresh_token, jose_decode, create_access_token]
      by_cases hk : key = vkey
      · by_cases he : iat + ACCESS_TOKEN_EXPIRE_MINUTES * 60 < now <;> simp [hk, he]
      · simp [hk]
    | some dd =>
      simp only [decode_refresh_token, jose_decode, create_access_token]
      by_cases hk : key = vkey
      · by_cases he : iat + dd < now <;> simp [hk, he]
      · simp [hk]
  · cases d with
    | none =>
      simp only [verify_token, utils_create_refresh_token]
      by_cases hk : key = vkey
      · by_cases he : iat + REFRESH_TOKEN_EXPIRE_DAYS * 86400 < now <;> simp [hk, he]
      · simp [hk]
    | some dd =>
      simp only [verify_token, utils_create_refresh_token]
      by_cases hk : key = vkey
      · by_cases he : iat + dd < now <;> simp [hk, he]
      · simp [hk]
  · cases d with
    | none =>
      simp only [verify_token, utils_create_access_token]
      by_cases hk : key = vkey
      · by_cases he : iat + ACCESS_TOKEN_EXPIRE_MINUTES * 60 < now <;> simp [hk, he]
      · simp [hk]
    | some dd =>
      simp only [verify_token, utils_create_access_token]
      by_cases hk : key = vkey
      · by_cases he : iat + dd < now <;> simp [hk, he]
      · simp [hk]

/-- Claim C8: a token whose `exp` claim is in the past at verification time
is rejected — `decode_access_token` returns an error and `verify_token`
returns `none` — for every verifying key, hence independent of whether the
token's signature is valid (`tok.key = key`) or not. -/
theorem C8_expired_token_rejected :
    (∀ (tok : JoseToken) (key now : Nat), tok.claims.exp < now →
        (decode_access_token tok key now).isOk = false)
    ∧ (∀ (tok : PyJwtToken) (expected : String) (key now : Nat),
        tok.claims.exp < now → verify_token tok expected key now = none) := by
  constructor
  · intro tok key now hexp
    simp only [decode_access_token, jose_decode]
    by_cases hk : tok.key = key
    · simp [hk, hexp]
    · simp [hk]
  · intro tok expected key now hexp
    simp only [verify_token]
    by_cases hk : tok.key = key
    · simp [hk, hexp]
    · simp [hk]

/-- Claim C8 witness: a token expired at verification time (exp 10, now 11)
is rejected both with a valid signature (key 42 on both sides) and with an
invalid one (minted with key 41, verified with 42). -/
theorem C8_expired_token_rejected_witness :
    (decode_access_token ⟨⟨some 1, 0, 10, "access", []⟩, 42⟩ 42 11).isOk = false
    ∧ (decode_access_token ⟨⟨some 1, 0, 10, "access", []⟩, 41⟩ 42 11).isOk = false
    ∧ verify_token ⟨⟨some 1, 10, some "access", []⟩, 42⟩ "access" 42 11 = none :=
  ⟨C8_expired_token_rejected.1 ⟨⟨some 1, 0, 10, "access", []⟩, 42⟩ 42 11 (by decide),
   C8_expired_token_rejected.1 ⟨⟨some 1, 0, 10, "access", []⟩, 41⟩ 42 11 (by decide),
   C8_expired_token_rejected.2 ⟨⟨some 1, 10, some "access", []⟩, 42⟩ "access" 42 11 (by decide)⟩

/-- Claim C1: for every existing, active user `u`, resolving the access
token issued for `u` through `get_current_user`'s pipeline returns a user
record with the same id as `u`; and every failure mode — missing
credentials, invalid signature, unknown subject, inactive user — yields
`none` rather than an exception (the function is total into `Option`).
`User.update_last_active` is modelled from the spec, being absent from
src/. -/
theorem C1_identity_resolution :
    (∀ (db : DB) (key iat now : Nat) (u : User),
        lookupUser db u.id = some u →
        u.is_active = true →
        now ≤ iat + ACCESS_TOKEN_EXPIRE_MINUTES * 60 →
        ∃ v, get_current_user (some (create_access_token u.id iat none none key))
              db key now = some v
          ∧ v.id = u.id)
    ∧ (∀ (db : DB) (key now : Nat), get_current_user none db key now = none)
    ∧ (∀ (tok : JoseToken) (db : DB) (key now : Nat), tok.key ≠ key →
        get_current_user (some tok) db key now = none)
    ∧ (∀ (db : DB) (key iat now s : Nat),
        lookupUser db s = none →
        get_current_user (some (create_access_token s iat none none key)) db key now = none)
    ∧ (∀ (db : DB) (key iat now : Nat) (u : User),
        lookupUser db u.id = some u →
        u.is_active = false →
        get_current_user (some (create_access_token u.id iat none none key)) db key now = none) := by
  refine ⟨?_, ?_, ?_, ?_, ?_⟩
  · intro db key iat now u hu hact hfresh
    refine ⟨u.update_last_active now, ?_, rfl⟩
    have hexp : ¬ (iat + ACCESS_TOKEN_EXPIRE_MINUTES * 60 < now) := by omega
    simp [get_current_user, decode_access_token, jose_decode, create_access_token,
          hexp, hu, hact]
  · intro db key now
    rfl
  · intro tok db key now hk
    simp [get_current_user, decode_access_token, jose_decode, hk]
  · intro db key iat now s hs
    by_cases he : iat + ACCESS_TOKEN_EXPIRE_MINUTES * 60 < now <;>
      simp [get_current_user, decode_access_token, jose_decode, create_access_token,
            he, hs]
  · intro db key iat now u hu hact
    by_cases he : iat + ACCESS_TOKEN_EXPIRE_MINUTES * 60 < now <;>
      simp [get_current_user, decode_access_token, jose_decode, create_access_token,
            he, hu, hact]

/-- Claim C1 witness: in a database holding only the active developer
Alice (id 1), resolving the access token minted for subject 1 at time 100
with key 7 at time 200 yields a user whose id is 1; and concrete failure
cases — no credentials, wrong signing key, unknown subject 8, and the
inactive user 5 — each resolve to `none`. -/
theorem C1_identity_resolution_witness :
    (∃ v, get_current_user (some (create_access_token uAlice.id 100 none none 7))
        { users := [uAlice] } 7 200 = some v ∧ v.id = uAlice.id)
    ∧ get_current_user none { users := [uAlice] } 7 200 = none
    ∧ get_current_user (some (create_access_token 1 100 none none 6))
        { users := [uAlice] } 7 200 = none
    ∧ get_current_user (some (create_access_token 8 100 none none 7))
        { users := [uAlice] } 7 200 = none
    ∧ get_current_user (some (create_access_token uSleepy.id 100 none none 7))
        { users := [uSleepy] } 7 200 = none :=
  ⟨C1_identity_resolution.1 { users := [uAlice] } 7 100 200 uAlice
      (by decide) (by decide) (by decide),
   C1_identity_resolution.2.1 { users := [uAlice] } 7 200,
   C1_identity_resolution.2.2.1 (create_access_token 1 100 none none 6)
      { users := [uAlice] } 7 200 (by decide),
   C1_identity_resolution.2.2.2.1 { users := [uAlice] } 7 100 200 8 (by decide),
   C1_identity_resolution.2.2.2.2 { users := [uSleepy] } 7 100 200 uSleepy
      (by decide) (by decide)⟩

/-- Claim C2 counterexample: the claimed iff fails at a concrete input.
Carol (id 3, developer) is not an admin, not the creator of the public
project `pPub` (creator 9), and holds no membership, so the spec predicate
`can_read_spec` grants read via the public branch — but the implemented
evaluator `ProjectPermission.check_project_access` never consults
`is_public` and denies. -/
theorem C2_counterexample :
    can_read_spec uCarol pPub { projects := [pPub] } = true
    ∧ check_project_access pPub.id uCarol { projects := [pPub] } = false := by
  decide

/-- Claim C2 amended: the dependency-layer evaluator
`ProjectPermission.check_project_access` grants read access iff the user is
ADMIN, the project's creator, or holds an active membership — the public
flag is not consulted (a user with no relationship to a project is denied
even when it is public); and the service-layer evaluator
`ProjectService._check_project_access` grants iff the project row exists
and `is_public` is true (its membership branch is dead code, so a member
of a private project is denied there). -/
theorem C2_project_read_access_amended :
    (∀ (db : DB) (u : User) (pid : Nat) (m : ProjectMember),
        db.members.filter (fun m2 => m2.project_id == pid && m2.user_id == u.id
            && m2.is_active) = [m] →
        check_project_access pid u db = true)
    ∧ (∀ (db : DB) (u : User) (pid : Nat),
        u.role ≠ UserRole.admin →
        db.projects.filter (fun p => p.id == pid && p.creator_id == u.id) = [] →
        db.members.filter (fun m => m.project_id == pid && m.user_id == u.id
            && m.is_active) = [] →
        check_project_access pid u db = false)
    ∧ (∀ (db : DB) (pid uid : Nat) (p : Project),
        db.projects.filter (fun q => q.id == pid) = [p] →
        svc_check_project_access pid uid db = p.is_public)
    ∧ (∀ (db : DB) (pid uid : Nat),
        db.projects.filter (fun q => q.id == pid) = [] →
        svc_check_project_access pid uid db = false) := by
  refine ⟨?_, ?_, ?_, ?_⟩
  · intro db u pid m hm
    simp only [check_project_access, hm]
    split <;> [rfl; split <;> simp [scalarOneOrNone]]
  · intro db u pid hrole hcreator hmem
    have hadmin : u.is_admin = false := by
      simp [User.is_admin, hrole]
    simp [check_project_access, hadmin, hcreator, hmem, scalarOneOrNone]
  · intro db pid uid p hp
    cases hpub : p.is_public <;>
      simp [svc_check_project_access, hp, scalarOneOrNone, hpub]
  · intro db pid uid hp
    simp [svc_check_project_access, hp, scalarOneOrNone]

/-- Claim C2 amended witness: Bob (id 2, developer) holds an active viewer
membership in the private project `pPriv` and is granted read access by the
dependency-layer evaluator; Carol has no relationship to the public project
`pPub` and is denied by it; and the service-layer evaluator evaluates to the
public flag on both projects (denying member Bob on the private one). -/
theorem C2_project_read_access_amended_witness :
    check_project_access pPriv.id uBob
      { projects := [pPriv], members := [mBobViewer] } = true
    ∧ check_project_access pPub.id uCarol { projects := [pPub] } = false
    ∧ svc_check_project_access pPriv.id uBob.id
      { projects := [pPriv], members := [mBobViewer] } = pPriv.is_public
    ∧ svc_check_project_access pPub.id uCarol.id { projects := [pPub] } = pPub.is_public :=
  ⟨C2_project_read_access_amended.1
      { projects := [pPriv], members := [mBobViewer] } uBob pPriv.id mBobViewer
      (by decide),
   C2_project_read_access_amended.2.1 { projects := [pPub] } uCarol pPub.id
      (by decide) (by decide) (by decide),
   C2_project_read_access_amended.2.2.1
      { projects := [pPriv], members := [mBobViewer] } pPriv.id uBob.id pPriv
      (by decide),
   C2_project_read_access_amended.2.2.1 { projects := [pPub] } pPub.id uCarol.id pPub
      (by decide)⟩

/-- Task 1 lives in the public project `pPub` and was created by user 9. -/
def tPubNine : Task := { id := 1, project_id := some 1, creator_id := some 9 }

/-- Claim C5 counterexample: Carol has spec-level read access to the public
project `pPub` (`can_read_spec` is true via the public branch), task
`tPubNine` belongs to that project, Carol is neither its creator nor an
assignee — yet `check_task_access` denies her, because its project branch
delegates to `check_project_access`, which ignores the public flag. -/
theorem C5_counterexample :
    can_read_spec uCarol pPub { projects := [pPub], tasks := [tPubNine] } = true
    ∧ tPubNine.project_id = some pPub.id
    ∧ tPubNine.creator_id ≠ some uCarol.id
    ∧ check_task_access tPubNine.id uCarol
        { projects := [pPub], tasks := [tPubNine] } = false := by
  decide

/-- Claim C5 amended: when project read access is taken as the implemented
dependency-layer evaluator (ADMIN / creator / active membership — not the
public flag) and the task's `creator_id` is non-null, access to the project
does propagate to every task of the project, even for a user who is neither
the task's creator nor an assignee. -/
theorem C5_task_access_inherits_project_access_amended :
    ∀ (db : DB) (u : User) (t : Task) (cid pid : Nat),
      db.tasks.filter (fun t2 => t2.id == t.id) = [t] →
      t.creator_id = some cid →
      t.project_id = some pid →
      check_project_access pid u db = true →
      check_task_access t.id u db = true := by
  intro db u t cid pid ht hc hp hacc
  simp only [check_task_access, ht, scalarOneOrNone, hc, hp]
  split
  · rfl
  · split
    · rfl
    · split
      · rfl
      · exact hacc

/-- Claim C5 amended witness: Bob, an active viewer member of the private
project `pPriv`, gains access to its task 2 (created by Alice, with no
assignment for Bob) through project inheritance. -/
theorem C5_task_access_inherits_project_access_amended_witness :
    check_task_access 2 uBob
      { projects := [pPriv], members := [mBobViewer],
        tasks := [{ id := 2, project_id := some 2, creator_id := some 1 }] } = true :=
  C5_task_access_inherits_project_access_amended
    { projects := [pPriv], members := [mBobViewer],
      tasks := [{ id := 2, project_id := some 2, creator_id := some 1 }] }
    uBob { id := 2, project_id := some 2, creator_id := some 1 } 1 2
    (by decide) rfl rfl (by decide)

/-- Claim C10: a task whose `creator_id` is null is denied to every
non-ADMIN user by `TaskPermission.check_task_access` — the null-creator
early return precedes the assignment and project-inheritance checks, so
even an active assignee of the task (as hypothesised here) with an active
membership in the task's project is denied.  (`User.is_admin` is modelled
from the spec, being absent from src/.) -/
theorem C10_null_creator_short_circuits_task_access :
    ∀ (db : DB) (u : User) (t : Task) (tid : Nat),
      db.tasks.filter (fun t2 => t2.id == tid) = [t] →
      t.creator_id = none →
      u.role ≠ UserRole.admin →
      (∃ a ∈ db.assignments, a.task_id = tid ∧ a.user_id = u.id ∧ a.is_active = true) →
      (∃ m ∈ db.members, t.project_id = some m.project_id ∧ m.user_id = u.id
          ∧ m.is_active = true) →
      check_task_access tid u db = false := by
  intro db u t tid ht hc hrole _ _
  have hadmin : u.is_admin = false := by
    simp [User.is_admin, hrole]
  simp [check_task_access, hadmin, ht, scalarOneOrNone, hc]

/-- Claim C10 witness: task 3 of project `pPriv` has a null creator; Bob
holds an active assignment on it and an active membership in the project,
yet is denied. -/
theorem C10_null_creator_short_circuits_task_access_witness :
    check_task_access 3 uBob
      { projects := [pPriv], members := [mBobViewer],
        tasks := [{ id := 3, project_id := some 2, creator_id := none }],
        assignments := [{ task_id := 3, user_id := 2, is_active := true }] } = false :=
  C10_null_creator_short_circuits_task_access
    { projects := [pPriv], members := [mBobViewer],
      tasks := [{ id := 3, project_id := some 2, creator_id := none }],
      assignments := [{ task_id := 3, user_id := 2, is_active := true }] }
    uBob { id := 3, project_id := some 2, creator_id := none } 3
    (by decide) rfl (by decide)
    ⟨{ task_id := 3, user_id := 2, is_active := true }, by decide⟩
    ⟨mBobViewer, by decide⟩

/-- Project 3 with Alice as its sole (active OWNER) member. -/
def dbSoleOwner : DB :=
  { users := [uAlice],
    projects := [{ id := 3, creator_id := 1, is_public := false }],
    members := [{ project_id := 3, user_id := 1, role := "owner",
                  is_active := true, added_by := 1 }] }

/-- Claim C4 counterexample: Alice is the sole active OWNER member of
project 3; her attempt to remove that membership (caller = target = Alice,
who passes the owner/manager permission gate) fails with
`ValidationError("Cannot remove project owner")` — not with the
`ConflictError` the claim states. -/
theorem C4_counterexample :
    remove_project_member 3 1 1 dbSoleOwner = .error .validation
    ∧ SvcError.validation ≠ SvcError.conflict :=
  ⟨rfl, by decide⟩

/-- Claim C4 amended: an attempt to remove an OWNER membership — sole or
not, active or not — always fails, with `AuthorizationError` when the
caller holds no owner/manager membership row of the project and with
`ValidationError` otherwise (never `ConflictError`); since every error
path rolls back, the membership set is unchanged, so this operation can
never remove a project's last OWNER. -/
theorem C4_owner_removal_always_rejected_amended :
    ∀ (db : DB) (pid uid caller : Nat) (m : ProjectMember),
      db.members.filter (fun m2 => m2.project_id == pid && m2.user_id == uid) = [m] →
      m.role = "owner" →
      remove_project_member pid uid caller db = .error .authorization
      ∨ remove_project_member pid uid caller db = .error .validation := by
  intro db pid uid caller m hm hrole
  by_cases hperm : svc_check_project_permission pid caller ["owner", "manager"] db
  · right
    simp [remove_project_member, hperm, hm, scalarOneOrNone, hrole]
  · left
    simp [remove_project_member, hperm]

/-- Claim C4 amended witness: both failure modes at concrete inputs —
Alice (an owner/manager caller) removing her own sole OWNER row gets
`ValidationError`; Carol (no membership at all, so failing the permission
gate) gets `AuthorizationError`. -/
theorem C4_owner_removal_always_rejected_amended_witness :
    (remove_project_member 3 1 1 dbSoleOwner = .error .authorization
     ∨ remove_project_member 3 1 1 dbSoleOwner = .error .validation)
    ∧ (remove_project_member 3 1 3 dbSoleOwner = .error .authorization
     ∨ remove_project_member 3 1 3 dbSoleOwner = .error .validation) :=
  ⟨C4_owner_removal_always_rejected_amended dbSoleOwner 3 1 1
      { project_id := 3, user_id := 1, role := "owner", is_active := true, added_by := 1 }
      (by decide) rfl,
   C4_owner_removal_always_rejected_amended dbSoleOwner 3 1 3
      { project_id := 3, user_id := 1, role := "owner", is_active := true, added_by := 1 }
      (by decide) rfl⟩

/-- Claim C6: when the creator exists and the new project id is fresh,
`create_project` succeeds in a single state transition that inserts the
project and exactly one active OWNER membership — belonging to the
creator — and `_check_project_permission` (the `can_manage` check used by
update/delete/add-member, with roles `["owner", "manager"]`) then grants
the creator. -/
theorem C6_create_project_sole_owner :
    ∀ (db : DB) (creator_id : Nat) (is_public : Bool) (u : User),
      db.users.filter (fun v => v.id == creator_id) = [u] →
      (∀ m ∈ db.members, m.project_id ≠ db.nextProjectId) →
      ∃ db2, create_project creator_id is_public db = .ok (db2, db.nextProjectId)
        ∧ (db2.members.filter (fun m => m.project_id == db.nextProjectId
              && m.role == "owner" && m.is_active)).length = 1
        ∧ (db2.members.filter (fun m => m.project_id == db.nextProjectId)).all
              (fun m => m.user_id == creator_id) = true
        ∧ svc_check_project_permission db.nextProjectId creator_id
              ["owner", "manager"] db2 = true := by
  intro db creator_id is_public u hu hfresh
  have hnil : ∀ (p : ProjectMember → Bool),
      (∀ m : ProjectMember, p m → m.project_id = db.nextProjectId) →
      db.members.filter p = [] := by
    intro p hp
    apply List.filter_eq_nil_iff.mpr
    intro m hm hpm
    exact hfresh m hm (hp m hpm)
  refine ⟨{ db with
      projects := db.projects ++
        [{ id := db.nextProjectId, creator_id := creator_id, is_public := is_public }],
      members := db.members ++
        [{ project_id := db.nextProjectId, user_id := creator_id, role := "owner",
           is_active := true, added_by := creator_id }],
      nextProjectId := db.nextProjectId + 1 }, ?_, ?_, ?_, ?_⟩
  · simp [create_project, hu, scalarOneOrNone]
  · simp only [List.filter_append]
    rw [hnil _ (by intro m h; simp at h; exact h.1.1)]
    simp
  · simp only [List.filter_append]
    rw [hnil _ (by intro m h; simp at h; exact h)]
    simp
  · simp only [svc_check_project_permission, List.filter_append]
    rw [hnil _ (by intro m h; simp at h; exact h.1)]
    simp [scalarOneOrNone]

/-- Claim C6 witness: creating a project for Alice in a database holding
only her yields project 1 with exactly one active OWNER membership, hers,
and the manage-permission check grants her. -/
theorem C6_create_project_sole_owner_witness :
    ∃ db2, create_project 1 false { users := [uAlice] } = .ok (db2, 1)
      ∧ (db2.members.filter (fun m => m.project_id == 1
            && m.role == "owner" && m.is_active)).length = 1
      ∧ (db2.members.filter (fun m => m.project_id == 1)).all
            (fun m => m.user_id == 1) = true
      ∧ svc_check_project_permission 1 1 ["owner", "manager"] db2 = true :=
  C6_create_project_sole_owner { users := [uAlice] } 1 false uAlice
    (by decide) (by intro m hm; cases hm)

/-- A private calendar owned by Alice. -/
def calPriv : Calendar := { id := 1, owner_id := 1, is_public := false }

/-- A public calendar owned by Alice. -/
def calPub : Calendar := { id := 2, owner_id := 1, is_public := true }

/-- An event on the private calendar, created by Alice. -/
def evPriv : Event := { id := 1, calendar_id := 1, creator_id := some 1 }

/-- An event on the public calendar, created by Alice. -/
def evPub : Event := { id := 2, calendar_id := 2, creator_id := some 1 }

/-- Bob is listed as an attendee of the private-calendar event. -/
def attBob : EventAttendee := { event_id := 1, user_id := 2 }

def dbCal : DB :=
  { users := [uAlice, uBob, uCarol, uAdmin],
    calendars := [calPriv, calPub],
    events := [evPriv, evPub],
    attendees := [attBob] }

/-- Claim C3 counterexample: Bob (id 2, developer) is merely an attendee of
the private-calendar event `evPriv` — not its creator, not the calendar
owner, not an ADMIN (`event_mutation_spec` is false for him) — yet
`update_event` succeeds for him, because mutation is gated by the
read-level `_check_event_access`, which attendee presence satisfies. -/
theorem C3_counterexample :
    (update_event evPriv.id { title := some "hijacked" } uBob.id dbCal).isOk = true
    ∧ event_mutation_spec uBob evPriv dbCal = false := by
  constructor
  · rfl
  · decide

/-- Claim C3 amended: `update_event` and `delete_event` are gated by the
same read-level `_check_event_access` as reads, so (a) an attendee of the
event can mutate it, (b) anybody can mutate an event of a public calendar,
and (c) a user with no direct relationship to a private-calendar event is
denied with `AuthorizationError` even when that user is an ADMIN — the
checker never consults the role. -/
theorem C3_event_mutation_amended :
    (∀ (db : DB) (e : Event) (cal : Calendar) (a : EventAttendee) (uid cid : Nat)
        (d : EventUpdate),
        db.events.filter (fun e2 => e2.id == e.id) = [e] →
        e.creator_id = some cid →
        db.calendars.filter (fun c => c.id == e.calendar_id) = [cal] →
        db.attendees.filter (fun a2 => a2.event_id == e.id && a2.user_id == uid) = [a] →
        (update_event e.id d uid db).isOk = true
        ∧ (delete_event e.id uid db).isOk = true)
    ∧ (∀ (db : DB) (e : Event) (cal : Calendar) (uid cid : Nat) (d : EventUpdate),
        db.events.filter (fun e2 => e2.id == e.id) = [e] →
        e.creator_id = some cid →
        db.calendars.filter (fun c => c.id == e.calendar_id) = [cal] →
        cal.is_public = true →
        (update_event e.id d uid db).isOk = true
        ∧ (delete_event e.id uid db).isOk = true)
    ∧ (∀ (db : DB) (e : Event) (cal : Calendar) (u : User) (cid : Nat) (d : EventUpdate),
        u.role = UserRole.admin →
        db.events.filter (fun e2 => e2.id == e.id) = [e] →
        e.creator_id = some cid →
        cid ≠ u.id →
        db.calendars.filter (fun c => c.id == e.calendar_id) = [cal] →
        cal.owner_id ≠ u.id →
        cal.is_public = false →
        db.attendees.filter (fun a2 => a2.event_id == e.id && a2.user_id == u.id) = [] →
        update_event e.id d u.id db = .error .authorization
        ∧ delete_event e.id u.id db = .error .authorization) := by
  have haccess : ∀ (db : DB) (e : Event) (uid : Nat),
      db.events.filter (fun e2 => e2.id == e.id) = [e] →
      check_event_access e.id uid db = true →
      (∀ d, (update_event e.id d uid db).isOk = true)
      ∧ (delete_event e.id uid db).isOk = true := by
    intro db e uid he hacc
    constructor
    · intro d
      simp [update_event, hacc, lookupEvent, he, scalarOneOrNone]
    · simp [delete_event, hacc, lookupEvent, he, scalarOneOrNone]
  refine ⟨?_, ?_, ?_⟩
  · intro db e cal a uid cid d he hc hcal hatt
    have hacc : check_event_access e.id uid db = true := by
      simp only [check_event_access, lookupEvent, lookupCalendar, he, hcal,
                 scalarOneOrNone, hc, hatt]
      split
      · rfl
      · split
        · rfl
        · split <;> rfl
    exact ⟨(haccess db e uid he hacc).1 d, (haccess db e uid he hacc).2⟩
  · intro db e cal uid cid d he hc hcal hpub
    have hacc : check_event_access e.id uid db = true := by
      simp only [check_event_access, lookupEvent, lookupCalendar, he, hcal,
                 scalarOneOrNone, hc, hpub]
      split
      · rfl
      · split <;> rfl
    exact ⟨(haccess db e uid he hacc).1 d, (haccess db e uid he hacc).2⟩
  · intro db e cal u cid d _ he hc hcid hcal howner hpub hatt
    have hacc : check_event_access e.id u.id db = false := by
      have hc2 : (cid == u.id) = false := by
        simp [hcid]
      have ho2 : (cal.owner_id == u.id) = false := by
        simp [howner]
      simp [check_event_access, lookupEvent, lookupCalendar, he, hcal,
            scalarOneOrNone, hc, hc2, ho2, hpub, hatt]
    constructor
    · simp [update_event, hacc]
    · simp [delete_event, hacc]

/-- Claim C3 amended witness: on the fixture database, attendee Bob can
update and delete the private-calendar event; Carol (no relation at all)
can update and delete the public-calendar event; and the admin user (id 4)
is denied both mutations of the private-calendar event. -/
theorem C3_event_mutation_amended_witness :
    ((update_event evPriv.id { title := some "x" } uBob.id dbCal).isOk = true
      ∧ (delete_event evPriv.id uBob.id dbCal).isOk = true)
    ∧ ((update_event evPub.id { title := some "y" } uCarol.id dbCal).isOk = true
      ∧ (delete_event evPub.id uCarol.id dbCal).isOk = true)
    ∧ (update_event evPriv.id { title := some "z" } uAdmin.id dbCal = .error .authorization
      ∧ delete_event evPriv.id uAdmin.id dbCal = .error .authorization) :=
  ⟨C3_event_mutation_amended.1 dbCal evPriv calPriv attBob uBob.id 1
      { title := some "x" } (by decide) rfl (by decide) (by decide),
   C3_event_mutation_amended.2.1 dbCal evPub calPub uCarol.id 1
      { title := some "y" } (by decide) rfl (by decide) rfl,
   C3_event_mutation_amended.2.2 dbCal evPriv calPriv uAdmin 1
      { title := some "z" } rfl (by decide) rfl (by decide) (by decide)
      (by decide) rfl (by decide)⟩

/-- Claim C9 counterexample: the calendar of `evPriv` is private, yet an
anonymous call to `get_event_by_id` (user_id `None`) returns the event —
the `if user_id:` guard skips the access check entirely for anonymous
callers, so anonymous read access is not equivalent to calendar
publicness. -/
theorem C9_counterexample :
    calPriv.is_public = false
    ∧ evPriv.calendar_id = calPriv.id
    ∧ get_event_by_id evPriv.id none dbCal = .ok evPriv :=
  ⟨rfl, rfl, rfl⟩

/-- Membership in the anonymous public-calendar id list coincides with the
existence of a public calendar carrying that id. -/
theorem mem_public_calendar_ids (l : List Calendar) (cid : Nat) :
    ((l.filter (fun c => c.is_public)).map (fun c => c.id)).contains cid = true
    ↔ ∃ c ∈ l, c.id = cid ∧ c.is_public = true := by
  induction l with
  | nil => simp
  | cons c l ih =>
    by_cases hc : c.is_public
    · by_cases hid : c.id = cid
      · simp [List.filter_cons, hc, hid]
      · have hb : (c.id == cid) = false := by
          simp [hid]
        simp [List.filter_cons, hc, hb, ih, hid]
        aesop
    · simp [List.filter_cons, hc, ih]
      aesop

/-- Claim C9 amended: for anonymous callers, `list_events` returns exactly
the events whose calendar is public; but `get_event_by_id` skips the
per-event access check when `user_id` is `None`, so an anonymous read of
any single existing event succeeds regardless of calendar visibility; and
the write routes reject anonymous callers with an authentication error
before the service runs, so anonymity never grants a mutation. -/
theorem C9_anonymous_event_access_amended :
    (∀ (db : DB) (e : Event),
        e ∈ list_events_anonymous db
        ↔ e ∈ db.events ∧ ∃ c ∈ db.calendars, c.id = e.calendar_id ∧ c.is_public = true)
    ∧ (∀ (db : DB) (eid : Nat) (e : Event),
        lookupEvent db eid = some e →
        get_event_by_id eid none db = .ok e)
    ∧ (∀ (db : DB) (eid : Nat) (d : EventUpdate),
        api_update_event eid d none db = .error .authentication
        ∧ api_delete_event eid none db = .error .authentication) := by
  refine ⟨?_, ?_, ?_⟩
  · intro db e
    simp only [list_events_anonymous, public_calendar_ids, List.mem_filter]
    rw [mem_public_calendar_ids db.calendars e.calendar_id]
  · intro db eid e he
    simp [get_event_by_id, he, truthy]
  · intro db eid d
    exact ⟨rfl, rfl⟩

/-- Claim C9 amended witness: on the fixture database the anonymous event
listing contains the public-calendar event and the public calendar
witnessing it; the anonymous single-event read of the private-calendar
event succeeds; and the anonymous update and delete routes both fail with
an authentication error. -/
theorem C9_anonymous_event_access_amended_witness :
    (evPub ∈ list_events_anonymous dbCal
      ↔ evPub ∈ dbCal.events
        ∧ ∃ c ∈ dbCal.calendars, c.id = evPub.calendar_id ∧ c.is_public = true)
    ∧ get_event_by_id evPriv.id none dbCal = .ok evPriv
    ∧ (api_update_event evPriv.id { title := some "w" } none dbCal = .error .authentication
      ∧ api_delete_event evPriv.id none dbCal = .error .authentication) :=
  ⟨C9_anonymous_event_access_amended.1 dbCal evPub,
   C9_anonymous_event_access_amended.2.1 dbCal evPriv.id evPriv (by decide),
   C9_anonymous_event_access_amended.2.2 dbCal evPriv.id { title := some "w" }⟩

end PMS
